import Mathlib

/-!
Verification of the credential cache / token issuer of
`rest_api_testing/auth/authentication_service.py`.

The Python service is embedded shallowly:
* `time.time()` values are rationals, passed explicitly (`now`).
* The token cache `self._token_cache : Dict[str, TokenCacheEntry]` is a
  map `String → Option TokenCacheEntry`.
* The single HTTP POST a call can make is modelled by passing the response
  the endpoint would return (`net : HttpResponse`); the result records how
  many POSTs were issued (`networkCalls`, 0 or 1).  The form-data assembly
  (lines 112-125 of the source) has no observable effect in this model
  because the response is supplied as a parameter.
* Raised exceptions become the `AuthError` inductive, whose constructors
  carry exactly the data the corresponding `raise` statements put into the
  exception, grouped by the spec's taxonomy names.
-/

/-- Cache entry to store token and expiry time
(dataclass `TokenCacheEntry`, source lines 14-19). -/
structure TokenCacheEntry where
  token : String
  expiry_time : ℚ
deriving DecidableEq, Repr

/-- `TokenCacheEntry.is_valid` (source lines 21-23):
`return time.time() < self.expiry_time`, with the current time passed in. -/
def TokenCacheEntry.is_valid (e : TokenCacheEntry) (now : ℚ) : Bool :=
  now < e.expiry_time

/-- The token cache, keyed by scope key. -/
abbrev Cache := String → Option TokenCacheEntry

/-- The configuration fields `get_access_token` reads (source lines 99-103).
A missing (`None`) credential is modelled as the empty string, matching
Python falsiness in `if not client_id or not client_secret`. -/
structure Config where
  ping_federate_base_url : String
  ping_federate_token_endpoint : String
  ping_federate_client_id : String
  ping_federate_client_secret : String
  ping_federate_grant_type : String
deriving DecidableEq, Repr

/-- The response the token endpoint returns to the POST.
`jsonFields = none` models a body that `response.json()` fails to parse;
`jsonFields = some fields` models a parsed JSON object whose (string)
fields are the association list `fields`.  `text` is `response.text()`. -/
structure HttpResponse where
  status : Nat
  jsonFields : Option (List (String × String))
  text : String
deriving DecidableEq, Repr

/-- The exceptions `get_access_token` raises, grouped by the spec's
taxonomy.  Each constructor carries exactly the data the source puts into
the exception object:
* `configurationError` — the `ValueError` of source lines 105-110;
* `authFailure status` — the `RuntimeError` of source lines 140-142, whose
  message embeds only the response status;
* `authProtocolFailure msg` — the `RuntimeError`s of source lines 150 and
  154 (JSON parse failure, missing access token). -/
inductive AuthError where
  | configurationError (msg : String)
  | authFailure (status : Nat)
  | authProtocolFailure (msg : String)
deriving DecidableEq, Repr

/-- Message of the `ValueError` raised for missing credentials
(source lines 106-110). -/
def configErrorMsg : String :=
  "PING Federate client ID and secret must be configured. Set PING_FEDERATE_CLIENT_ID and PING_FEDERATE_CLIENT_SECRET environment variables or in a .env file"

/-- Message of the `RuntimeError` raised on a JSON parse failure
(source line 150). -/
def parseErrorMsg : String :=
  "Failed to parse PING Federate response"

/-- Message of the `RuntimeError` raised when the parsed response has no
access token (source line 154). -/
def missingTokenMsg : String :=
  "Access token not found in PING Federate response"

/-- Result of one `get_access_token` call: the returned token or the
raised error, the cache after the call, and the number of POSTs issued. -/
structure FetchResult where
  outcome : Except AuthError String
  cache : Cache
  networkCalls : Nat

/-- `_create_scope_key` (source lines 167-180): empty string for no
scopes, otherwise the sorted scopes joined with single spaces
(`" ".join(sorted(scopes))`). -/
def create_scope_key (scopes : List String) : String :=
  if scopes.isEmpty then ""
  else String.intercalate " " (List.insertionSort (· ≤ ·) scopes)

/-- The scope key as the spec words it (for the refinement part of C4):
"the sorted, space-joined list of the scopes". -/
def scope_key_spec (scopes : List String) : String :=
  String.intercalate " " (List.insertionSort (· ≤ ·) scopes)

/-- The fetch path of `get_access_token` (source lines 99-165): credential
check, POST, status check, JSON parsing, access-token extraction, cache
write.  `if not access_token` treats both a missing field and an empty
token string as absent. -/
def fetch_new_token (cfg : Config) (cache : Cache) (scope_key : String)
    (now : ℚ) (net : HttpResponse) : FetchResult :=
  if cfg.ping_federate_client_id = "" ∨ cfg.ping_federate_client_secret = "" then
    ⟨.error (.configurationError configErrorMsg), cache, 0⟩
  else
    if net.status ≠ 200 then
      ⟨.error (.authFailure net.status), cache, 1⟩
    else
      match net.jsonFields with
      | none => ⟨.error (.authProtocolFailure parseErrorMsg), cache, 1⟩
      | some fields =>
        match fields.lookup "access_token" with
        | none => ⟨.error (.authProtocolFailure missingTokenMsg), cache, 1⟩
        | some access_token =>
          if access_token = "" then
            ⟨.error (.authProtocolFailure missingTokenMsg), cache, 1⟩
          else
            ⟨.ok access_token,
             fun k => if k = scope_key then
               some ⟨access_token, now + 55 * 60⟩ else cache k,
             1⟩

/-- `get_access_token` (source lines 58-165).  The cache-check block
(lines 77-92): on a valid cached entry return it with no POST; on an
expired entry delete it and fall through to the fetch path; on a miss or
with `bypass_cache` go straight to the fetch path. -/
def get_access_token (cfg : Config) (cache : Cache) (scopes : List String)
    (bypass_cache : Bool) (now : ℚ) (net : HttpResponse) : FetchResult :=
  let scope_key := create_scope_key scopes
  if bypass_cache = false then
    match cache scope_key with
    | some cached_entry =>
      if cached_entry.is_valid now then
        ⟨.ok cached_entry.token, cache, 0⟩
      else
        fetch_new_token cfg (fun k => if k = scope_key then none else cache k)
          scope_key now net
    | none => fetch_new_token cfg cache scope_key now net
  else
    fetch_new_token cfg cache scope_key now net

/-- `invalidate_token` (source lines 182-196): delete the entry for the
computed scope key when present, otherwise leave the cache untouched. -/
def invalidate_token (cache : Cache) (scopes : List String) : Cache :=
  let scope_key := create_scope_key scopes
  match cache scope_key with
  | some _ => fun k => if k = scope_key then none else cache k
  | none => cache

/-- `invalidate_all_tokens` (source lines 198-201). -/
def invalidate_all_tokens (_cache : Cache) : Cache :=
  fun _ => none

/-! ### Helper lemmas about the fetch path -/

theorem fetch_of_creds_missing (cfg : Config) (c : Cache) (key : String)
    (now : ℚ) (net : HttpResponse)
    (h : cfg.ping_federate_client_id = "" ∨ cfg.ping_federate_client_secret = "") :
    fetch_new_token cfg c key now net
      = ⟨.error (.configurationError configErrorMsg), c, 0⟩ := by
  unfold fetch_new_token
  rw [if_pos h]

theorem fetch_non200 (cfg : Config) (c : Cache) (key : String)
    (now : ℚ) (net : HttpResponse)
    (hid : cfg.ping_federate_client_id ≠ "")
    (hsec : cfg.ping_federate_client_secret ≠ "")
    (hstat : net.status ≠ 200) :
    fetch_new_token cfg c key now net
      = ⟨.error (.authFailure net.status), c, 1⟩ := by
  unfold fetch_new_token
  rw [if_neg (by simp [hid, hsec]), if_pos hstat]

theorem fetch_parse_failure (cfg : Config) (c : Cache) (key : String)
    (now : ℚ) (net : HttpResponse)
    (hid : cfg.ping_federate_client_id ≠ "")
    (hsec : cfg.ping_federate_client_secret ≠ "")
    (hstat : net.status = 200) (hj : net.jsonFields = none) :
    fetch_new_token cfg c key now net
      = ⟨.error (.authProtocolFailure parseErrorMsg), c, 1⟩ := by
  unfold fetch_new_token
  rw [if_neg (by simp [hid, hsec]), if_neg (by simp [hstat]), hj]


theorem fetch_missing_access_token (cfg : Config) (c : Cache) (key : String)
    (now : ℚ) (net : HttpResponse) (fields : List (String × String))
    (hid : cfg.ping_federate_client_id ≠ "")
    (hsec : cfg.ping_federate_client_secret ≠ "")
    (hstat : net.status = 200) (hj : net.jsonFields = some fields)
    (hl : fields.lookup "access_token" = none) :
    fetch_new_token cfg c key now net
      = ⟨.error (.authProtocolFailure missingTokenMsg), c, 1⟩ := by
  unfold fetch_new_token
  rw [if_neg (by simp [hid, hsec]), if_neg (by simp [hstat]), hj]
  dsimp only
  rw [hl]

theorem fetch_success (cfg : Config) (c : Cache) (key : String)
    (now : ℚ) (net : HttpResponse) (fields : List (String × String)) (tok : String)
    (hid : cfg.ping_federate_client_id ≠ "")
    (hsec : cfg.ping_federate_client_secret ≠ "")
    (hstat : net.status = 200) (hj : net.jsonFields = some fields)
    (hl : fields.lookup "access_token" = some tok) (hne : tok ≠ "") :
    fetch_new_token cfg c key now net
      = ⟨.ok tok,
         fun k => if k = key then some ⟨tok, now + 55 * 60⟩ else c k, 1⟩ := by
  unfold fetch_new_token
  rw [if_neg (by simp [hid, hsec]), if_neg (by simp [hstat]), hj]
  dsimp only
  rw [hl]
  dsimp only
  rw [if_neg hne]

/-- Exhaustive enumeration of the possible results of the fetch path. -/
theorem fetch_new_token_cases (cfg : Config) (c : Cache) (key : String)
    (now : ℚ) (net : HttpResponse) :
    ((cfg.ping_federate_client_id = "" ∨ cfg.ping_federate_client_secret = "") ∧
      fetch_new_token cfg c key now net
        = ⟨.error (.configurationError configErrorMsg), c, 0⟩) ∨
    (∃ err, fetch_new_token cfg c key now net = ⟨.error err, c, 1⟩) ∨
    (∃ tok, tok ≠ "" ∧ fetch_new_token cfg c key now net
        = ⟨.ok tok, fun k => if k = key then some ⟨tok, now + 55 * 60⟩ else c k,
           1⟩) := by
  unfold fetch_new_token
  split
  next h1 => exact Or.inl ⟨h1, rfl⟩
  next h1 =>
    split
    next h2 => exact Or.inr (Or.inl ⟨_, rfl⟩)
    next h2 =>
      split
      · exact Or.inr (Or.inl ⟨_, rfl⟩)
      · split
        · exact Or.inr (Or.inl ⟨_, rfl⟩)
        · split
          next h3 => exact Or.inr (Or.inl ⟨_, rfl⟩)
          next h3 => exact Or.inr (Or.inr ⟨_, h3, rfl⟩)

theorem fetch_calls_le_one (cfg : Config) (c : Cache) (key : String)
    (now : ℚ) (net : HttpResponse) :
    (fetch_new_token cfg c key now net).networkCalls ≤ 1 := by
  rcases fetch_new_token_cases cfg c key now net with ⟨-, h⟩ | ⟨err, h⟩ | ⟨tok, -, h⟩
  · rw [h]; exact Nat.zero_le 1
  · rw [h]
  · rw [h]

theorem fetch_calls_one (cfg : Config) (c : Cache) (key : String)
    (now : ℚ) (net : HttpResponse)
    (hid : cfg.ping_federate_client_id ≠ "")
    (hsec : cfg.ping_federate_client_secret ≠ "") :
    (fetch_new_token cfg c key now net).networkCalls = 1 := by
  rcases fetch_new_token_cases cfg c key now net with ⟨hcond, -⟩ | ⟨err, h⟩ | ⟨tok, -, h⟩
  · exact absurd hcond (by simp [hid, hsec])
  · rw [h]
  · rw [h]

theorem fetch_error_cache (cfg : Config) (c : Cache) (key : String)
    (now : ℚ) (net : HttpResponse) (err : AuthError)
    (h : (fetch_new_token cfg c key now net).outcome = .error err) :
    (fetch_new_token cfg c key now net).cache = c := by
  rcases fetch_new_token_cases cfg c key now net with ⟨-, he⟩ | ⟨err2, he⟩ | ⟨tok, -, he⟩
  · rw [he]
  · rw [he]
  · rw [he] at h
    exact absurd h (by simp)

theorem fetch_success_cache (cfg : Config) (c : Cache) (key : String)
    (now : ℚ) (net : HttpResponse) (tok : String)
    (h : (fetch_new_token cfg c key now net).outcome = .ok tok) :
    (fetch_new_token cfg c key now net).cache
      = fun k => if k = key then some ⟨tok, now + 55 * 60⟩ else c k := by
  rcases fetch_new_token_cases cfg c key now net with ⟨-, he⟩ | ⟨err2, he⟩ | ⟨tok2, -, he⟩
  · rw [he] at h; exact absurd h (by simp)
  · rw [he] at h; exact absurd h (by simp)
  · rw [he] at h
    simp only [Except.ok.injEq] at h
    subst h
    rw [he]

/-! ### Helper lemmas about `get_access_token` and `invalidate_token` -/

/-- Exhaustive enumeration of the paths through `get_access_token`: either
a cache hit (valid entry, no POST), or the fetch path applied to a cache
that agrees with the initial one on the scope key or has the (expired)
entry deleted. -/
theorem get_access_token_cases (cfg : Config) (c : Cache) (scopes : List String)
    (bypass : Bool) (now : ℚ) (net : HttpResponse) :
    (∃ e, c (create_scope_key scopes) = some e ∧ e.is_valid now = true ∧
      bypass = false ∧
      get_access_token cfg c scopes bypass now net = ⟨.ok e.token, c, 0⟩) ∨
    (∃ c2 : Cache, get_access_token cfg c scopes bypass now net
        = fetch_new_token cfg c2 (create_scope_key scopes) now net ∧
      (c2 (create_scope_key scopes) = c (create_scope_key scopes) ∨
        c2 (create_scope_key scopes) = none)) := by
  cases bypass with
  | true =>
    refine Or.inr ⟨c, ?_, Or.inl rfl⟩
    simp [get_access_token]
  | false =>
    cases hc : c (create_scope_key scopes) with
    | some e =>
      cases hv : e.is_valid now with
      | true =>
        refine Or.inl ⟨e, rfl, hv, rfl, ?_⟩
        simp [get_access_token, hc, hv]
      | false =>
        refine Or.inr ⟨fun k => if k = create_scope_key scopes then none else c k,
          ?_, Or.inr (by simp)⟩
        simp [get_access_token, hc, hv]
    | none =>
      refine Or.inr ⟨c, ?_, Or.inl hc⟩
      simp [get_access_token, hc]

/-- Under `bypass_cache`, or when the cache holds no valid entry for the
scope key, the call goes down the fetch path. -/
theorem get_eq_fetch_of_path (cfg : Config) (c : Cache) (scopes : List String)
    (bypass : Bool) (now : ℚ) (net : HttpResponse)
    (hpath : bypass = true ∨
      ∀ e, c (create_scope_key scopes) = some e → e.is_valid now = false) :
    ∃ c2 : Cache,
      get_access_token cfg c scopes bypass now net
        = fetch_new_token cfg c2 (create_scope_key scopes) now net ∧
      (c2 (create_scope_key scopes) = c (create_scope_key scopes) ∨
        c2 (create_scope_key scopes) = none) := by
  rcases get_access_token_cases cfg c scopes bypass now net with
    ⟨e, hc, hv, hb, heq⟩ | h
  · rcases hpath with hbt | hinv
    · rw [hb] at hbt
      exact absurd hbt (by simp)
    · have hfalse := hinv e hc
      rw [hv] at hfalse
      exact absurd hfalse (by simp)
  · exact h

theorem get_calls_le_one (cfg : Config) (c : Cache) (scopes : List String)
    (bypass : Bool) (now : ℚ) (net : HttpResponse) :
    (get_access_token cfg c scopes bypass now net).networkCalls ≤ 1 := by
  rcases get_access_token_cases cfg c scopes bypass now net with
    ⟨e, -, -, -, heq⟩ | ⟨c2, heq, -⟩
  · rw [heq]
    exact Nat.zero_le 1
  · rw [heq]
    exact fetch_calls_le_one cfg c2 (create_scope_key scopes) now net

/-- After a successful call, the cache holds an entry for the scope key
whose token is the returned one. -/
theorem get_success_entry (cfg : Config) (c : Cache) (scopes : List String)
    (bypass : Bool) (now : ℚ) (net : HttpResponse) (tok : String)
    (h : (get_access_token cfg c scopes bypass now net).outcome = .ok tok) :
    ∃ e, (get_access_token cfg c scopes bypass now net).cache
        (create_scope_key scopes) = some e ∧ e.token = tok := by
  rcases get_access_token_cases cfg c scopes bypass now net with
    ⟨e, hc, -, -, heq⟩ | ⟨c2, heq, -⟩
  · rw [heq] at h ⊢
    simp only [Except.ok.injEq] at h
    exact ⟨e, hc, h⟩
  · rw [heq] at h ⊢
    rw [fetch_success_cache cfg c2 (create_scope_key scopes) now net tok h]
    exact ⟨⟨tok, now + 55 * 60⟩, by simp, rfl⟩

/-- A valid cached entry is returned as-is, with no POST and no cache
mutation (source lines 77-84). -/
theorem get_cache_hit (cfg : Config) (c : Cache) (scopes : List String)
    (now : ℚ) (net : HttpResponse) (e : TokenCacheEntry)
    (hc : c (create_scope_key scopes) = some e) (hv : e.is_valid now = true) :
    get_access_token cfg c scopes false now net = ⟨.ok e.token, c, 0⟩ := by
  simp [get_access_token, hc, hv]

theorem invalidate_token_key (c : Cache) (scopes : List String) :
    invalidate_token c scopes (create_scope_key scopes) = none := by
  unfold invalidate_token
  cases hc : c (create_scope_key scopes) with
  | some e => simp [hc]
  | none => simp [hc]

theorem invalidate_token_other (c : Cache) (scopes : List String) (k : String)
    (h : k ≠ create_scope_key scopes) :
    invalidate_token c scopes k = c k := by
  unfold invalidate_token
  cases hc : c (create_scope_key scopes) with
  | some e => simp [hc, h]
  | none => simp [hc]

/-! ### Claim theorems -/

/-- Claim C1: calling `get_access_token` twice with identical scopes and
`bypass_cache = False`, where the first call succeeds and the second
happens while the stored entry's expiry is still strictly in the future,
issues at most one network call in total, and the second call returns the
same token string as the first. -/
theorem cached_token_reuse (cfg : Config) (c₀ : Cache) (scopes : List String)
    (now₁ now₂ : ℚ) (net₁ net₂ : HttpResponse) (tok : String)
    (h1 : (get_access_token cfg c₀ scopes false now₁ net₁).outcome = Except.ok tok)
    (h2 : ∃ e, (get_access_token cfg c₀ scopes false now₁ net₁).cache
        (create_scope_key scopes) = some e ∧ now₂ < e.expiry_time) :
    (get_access_token cfg (get_access_token cfg c₀ scopes false now₁ net₁).cache
        scopes false now₂ net₂).outcome = Except.ok tok ∧
    (get_access_token cfg c₀ scopes false now₁ net₁).networkCalls +
      (get_access_token cfg (get_access_token cfg c₀ scopes false now₁ net₁).cache
        scopes false now₂ net₂).networkCalls ≤ 1 := by
  obtain ⟨e, he, hlt⟩ := h2
  obtain ⟨e2, he2, htok⟩ := get_success_entry cfg c₀ scopes false now₁ net₁ tok h1
  rw [he] at he2
  injection he2 with he2
  subst he2
  have hv : e.is_valid now₂ = true := by
    simp [TokenCacheEntry.is_valid, hlt]
  have heq2 := get_cache_hit cfg
    (get_access_token cfg c₀ scopes false now₁ net₁).cache scopes now₂ net₂ e he hv
  constructor
  · rw [heq2, htok]
  · rw [heq2]
    have hle := get_calls_le_one cfg c₀ scopes false now₁ net₁
    simpa using hle

/-- Claim C2 (amended): on a non-200 response on the fetch path, the call
fails with the authentication-failure error, which carries the response
status code (the response body is only logged, not carried in the error),
and the cache entry for the scope key is not populated by the call. -/
theorem non_200_auth_failure (cfg : Config) (c : Cache) (scopes : List String)
    (bypass : Bool) (now : ℚ) (net : HttpResponse)
    (hid : cfg.ping_federate_client_id ≠ "")
    (hsec : cfg.ping_federate_client_secret ≠ "")
    (hpath : bypass = true ∨
      ∀ e, c (create_scope_key scopes) = some e → e.is_valid now = false)
    (hstatus : net.status ≠ 200) :
    (get_access_token cfg c scopes bypass now net).outcome
      = Except.error (AuthError.authFailure net.status) ∧
    ((get_access_token cfg c scopes bypass now net).cache (create_scope_key scopes)
        = c (create_scope_key scopes) ∨
      (get_access_token cfg c scopes bypass now net).cache (create_scope_key scopes)
        = none) := by
  obtain ⟨c2, heq, hc2⟩ := get_eq_fetch_of_path cfg c scopes bypass now net hpath
  rw [heq, fetch_non200 cfg c2 (create_scope_key scopes) now net hid hsec hstatus]
  exact ⟨rfl, hc2⟩

/-- Claim C3: on a 200 response whose body cannot be parsed as JSON or
parses to an object lacking the access-token field, the call fails with a
protocol-failure error, and the cache entry for the scope key is not
populated by the call. -/
theorem malformed_response_protocol_failure (cfg : Config) (c : Cache)
    (scopes : List String) (bypass : Bool) (now : ℚ) (net : HttpResponse)
    (hid : cfg.ping_federate_client_id ≠ "")
    (hsec : cfg.ping_federate_client_secret ≠ "")
    (hpath : bypass = true ∨
      ∀ e, c (create_scope_key scopes) = some e → e.is_valid now = false)
    (h200 : net.status = 200)
    (hbad : net.jsonFields = none ∨
      ∃ fields, net.jsonFields = some fields ∧
        fields.lookup "access_token" = none) :
    (∃ m, (get_access_token cfg c scopes bypass now net).outcome
        = Except.error (AuthError.authProtocolFailure m)) ∧
    ((get_access_token cfg c scopes bypass now net).cache (create_scope_key scopes)
        = c (create_scope_key scopes) ∨
      (get_access_token cfg c scopes bypass now net).cache (create_scope_key scopes)
        = none) := by
  obtain ⟨c2, heq, hc2⟩ := get_eq_fetch_of_path cfg c scopes bypass now net hpath
  rcases hbad with hj | ⟨fields, hj, hl⟩
  · rw [heq, fetch_parse_failure cfg c2 (create_scope_key scopes) now net
      hid hsec h200 hj]
    exact ⟨⟨parseErrorMsg, rfl⟩, hc2⟩
  · rw [heq, fetch_missing_access_token cfg c2 (create_scope_key scopes) now net
      fields hid hsec h200 hj hl]
    exact ⟨⟨missingTokenMsg, rfl⟩, hc2⟩

/-- Claim C4: the cache key is permutation-invariant, is the empty string
for the empty scope list, and is the sorted, space-joined scope list. -/
theorem create_scope_key_correct (S1 S2 : List String) (h : List.Perm S1 S2) :
    create_scope_key S1 = create_scope_key S2 ∧
    create_scope_key [] = "" ∧
    (∀ S : List String, create_scope_key S = scope_key_spec S) := by
  have hrefine : ∀ S : List String, create_scope_key S = scope_key_spec S := by
    intro S
    cases S with
    | nil => rfl
    | cons a l => rfl
  have hsort : List.insertionSort (· ≤ ·) S1 = List.insertionSort (· ≤ ·) S2 :=
    List.eq_of_perm_of_sorted
      ((List.perm_insertionSort _ S1).trans
        (h.trans (List.perm_insertionSort _ S2).symm))
      (List.sorted_insertionSort _ S1) (List.sorted_insertionSort _ S2)
  refine ⟨?_, rfl, hrefine⟩
  rw [hrefine S1, hrefine S2]
  unfold scope_key_spec
  rw [hsort]

/-- Claim C5: a cache entry is valid exactly when the current time is
strictly below its expiry time. -/
theorem token_valid_iff (e : TokenCacheEntry) (now : ℚ) :
    e.is_valid now = true ↔ now < e.expiry_time := by
  simp [TokenCacheEntry.is_valid]

/-- Claim C6: `invalidate_token` empties the entry for the computed scope
key, leaves every other key untouched, and a subsequent
`get_access_token` with the same scopes and `bypass_cache = False` issues
a network call. -/
theorem invalidate_then_refetch (cfg : Config) (c : Cache) (scopes : List String)
    (now : ℚ) (net : HttpResponse)
    (hid : cfg.ping_federate_client_id ≠ "")
    (hsec : cfg.ping_federate_client_secret ≠ "") :
    invalidate_token c scopes (create_scope_key scopes) = none ∧
    (∀ k, k ≠ create_scope_key scopes → invalidate_token c scopes k = c k) ∧
    (get_access_token cfg (invalidate_token c scopes) scopes false now
      net).networkCalls = 1 := by
  refine ⟨invalidate_token_key c scopes,
    fun k hk => invalidate_token_other c scopes k hk, ?_⟩
  obtain ⟨c2, heq, -⟩ := get_eq_fetch_of_path cfg (invalidate_token c scopes)
    scopes false now net
    (Or.inr (by
      intro e hE
      rw [invalidate_token_key c scopes] at hE
      exact absurd hE (by simp)))
  rw [heq]
  exact fetch_calls_one cfg c2 (create_scope_key scopes) now net hid hsec

/-- Claim C7: with `bypass_cache = True`, `get_access_token` issues a
network call regardless of the cache state. -/
theorem bypass_cache_fetches (cfg : Config) (c : Cache) (scopes : List String)
    (now : ℚ) (net : HttpResponse)
    (hid : cfg.ping_federate_client_id ≠ "")
    (hsec : cfg.ping_federate_client_secret ≠ "") :
    (get_access_token cfg c scopes true now net).networkCalls = 1 := by
  obtain ⟨c2, heq, -⟩ := get_eq_fetch_of_path cfg c scopes true now net (Or.inl rfl)
  rw [heq]
  exact fetch_calls_one cfg c2 (create_scope_key scopes) now net hid hsec

/-- Claim C8: with a missing (empty) client id or client secret, the fetch
path fails with the configuration error before issuing any network call. -/
theorem missing_credentials_fail_fast (cfg : Config) (c : Cache)
    (scopes : List String) (bypass : Bool) (now : ℚ) (net : HttpResponse)
    (hmiss : cfg.ping_federate_client_id = "" ∨
      cfg.ping_federate_client_secret = "")
    (hpath : bypass = true ∨
      ∀ e, c (create_scope_key scopes) = some e → e.is_valid now = false) :
    (get_access_token cfg c scopes bypass now net).outcome
      = Except.error (AuthError.configurationError configErrorMsg) ∧
    (get_access_token cfg c scopes bypass now net).networkCalls = 0 := by
  obtain ⟨c2, heq, -⟩ := get_eq_fetch_of_path cfg c scopes bypass now net hpath
  rw [heq, fetch_of_creds_missing cfg c2 (create_scope_key scopes) now net hmiss]
  exact ⟨rfl, rfl⟩

/-- Claim C9: on a successful fetch (status 200, parsed JSON with a
non-empty access token), the call stores a cache entry for the scope key
whose expiry is the fetch time plus 55 minutes, and returns exactly the
stored token. -/
theorem successful_fetch_caches_token (cfg : Config) (c : Cache)
    (scopes : List String) (bypass : Bool) (now : ℚ) (net : HttpResponse)
    (fields : List (String × String)) (tok : String)
    (hid : cfg.ping_federate_client_id ≠ "")
    (hsec : cfg.ping_federate_client_secret ≠ "")
    (hpath : bypass = true ∨
      ∀ e, c (create_scope_key scopes) = some e → e.is_valid now = false)
    (h200 : net.status = 200)
    (hf : net.jsonFields = some fields)
    (ht : fields.lookup "access_token" = some tok) (hne : tok ≠ "") :
    (get_access_token cfg c scopes bypass now net).outcome = Except.ok tok ∧
    (get_access_token cfg c scopes bypass now net).cache (create_scope_key scopes)
      = some ⟨tok, now + 55 * 60⟩ := by
  obtain ⟨c2, heq, -⟩ := get_eq_fetch_of_path cfg c scopes bypass now net hpath
  rw [heq, fetch_success cfg c2 (create_scope_key scopes) now net fields tok
    hid hsec h200 hf ht hne]
  exact ⟨rfl, by simp⟩

/-- Claim C10: a call with `bypass_cache = False` that finds an expired
entry deletes it before fetching, so on a failed fetch the scope key has
no entry afterwards; with `bypass_cache = True` a failed fetch leaves the
pre-existing entry in place. -/
theorem expired_entry_removed_on_failed_refetch (cfg : Config) (c : Cache)
    (scopes : List String) (now : ℚ) (net : HttpResponse)
    (e : TokenCacheEntry) (err : AuthError)
    (he : c (create_scope_key scopes) = some e)
    (hexp : e.is_valid now = false)
    (hfail : (get_access_token cfg c scopes false now net).outcome
      = Except.error err) :
    (get_access_token cfg c scopes false now net).cache
      (create_scope_key scopes) = none ∧
    (∀ err2, (get_access_token cfg c scopes true now net).outcome
        = Except.error err2 →
      (get_access_token cfg c scopes true now net).cache (create_scope_key scopes)
        = c (create_scope_key scopes)) := by
  have heq : get_access_token cfg c scopes false now net
      = fetch_new_token cfg
        (fun k => if k = create_scope_key scopes then none else c k)
        (create_scope_key scopes) now net := by
    simp [get_access_token, he, hexp]
  constructor
  · rw [heq] at hfail ⊢
    rw [fetch_error_cache cfg _ (create_scope_key scopes) now net err hfail]
    simp
  · intro err2 hf2
    have heq2 : get_access_token cfg c scopes true now net
        = fetch_new_token cfg c (create_scope_key scopes) now net := by
      simp [get_access_token]
    rw [heq2] at hf2 ⊢
    rw [fetch_error_cache cfg c (create_scope_key scopes) now net err2 hf2]

/-! ### Concrete instances used by the witnesses -/

/-- A fully configured service (values as in the repository's unit tests). -/
def cfgEx : Config :=
  ⟨"https://auth.example.com", "/as/token.oauth2", "test-client-id",
   "test-client-secret", "client_credentials"⟩

/-- A configuration with a missing client id. -/
def cfgNoCred : Config :=
  ⟨"https://auth.example.com", "/as/token.oauth2", "",
   "test-client-secret", "client_credentials"⟩

/-- The empty token cache. -/
def emptyCache : Cache := fun _ => none

/-- A cache holding an entry valid until time 5 under every key. -/
def seedCache : Cache := fun _ => some ⟨"tok0", 5⟩

/-- A cache holding an entry expired at time 5 under every key. -/
def staleCache : Cache := fun _ => some ⟨"old-token", 5⟩

/-- A successful token response. -/
def netOk : HttpResponse := ⟨200, some [("access_token", "tok1")], ""⟩

/-- A 401 response. -/
def netErr : HttpResponse := ⟨401, none, "Unauthorized"⟩

/-- A 401 response with body AAAA. -/
def netErrA : HttpResponse := ⟨401, none, "AAAA"⟩

/-- A 401 response with body BBBB. -/
def netErrB : HttpResponse := ⟨401, none, "BBBB"⟩

/-- A 200 response whose JSON object has no access token. -/
def netNoTok : HttpResponse := ⟨200, some [("error", "invalid_scope")], ""⟩

/-- The empty cache holds no valid entry under any key at any time. -/
theorem emptyCache_no_valid (key : String) (now : ℚ) :
    ∀ e, emptyCache key = some e → e.is_valid now = false :=
  fun _ h => Option.noConfusion h

/-! ### Counterexample for claim C2 as stated -/

/-- Counterexample for C2 as stated: two calls that differ only in the
non-200 response body (text "AAAA" vs "BBBB") produce the very same error
value, so the raised error cannot carry the response body; it carries the
status code only (the body is only written to the log). -/
theorem non_200_error_lacks_body :
    (get_access_token cfgEx emptyCache [] false 0 netErrA).outcome
      = (get_access_token cfgEx emptyCache [] false 0 netErrB).outcome ∧
    (get_access_token cfgEx emptyCache [] false 0 netErrA).outcome
      = Except.error (AuthError.authFailure 401) ∧
    netErrA.text ≠ netErrB.text :=
  ⟨rfl, rfl, by decide⟩

/-! ### Witnesses -/

/-- Witness for C1 at a concrete input: a cache pre-seeded for the empty
scope list, first call at time 0, second call at time 1. -/
theorem cached_token_reuse_witness :
    ((get_access_token cfgEx seedCache [] false 0 netOk).outcome
        = Except.ok "tok0" ∧
      (∃ e, (get_access_token cfgEx seedCache [] false 0 netOk).cache
          (create_scope_key []) = some e ∧ (1 : ℚ) < e.expiry_time)) ∧
    ((get_access_token cfgEx
        (get_access_token cfgEx seedCache [] false 0 netOk).cache [] false 1
        netOk).outcome = Except.ok "tok0" ∧
      (get_access_token cfgEx seedCache [] false 0 netOk).networkCalls +
        (get_access_token cfgEx
          (get_access_token cfgEx seedCache [] false 0 netOk).cache [] false 1
          netOk).networkCalls ≤ 1) :=
  ⟨⟨rfl, ⟨⟨"tok0", 5⟩, rfl, by decide⟩⟩,
    cached_token_reuse cfgEx seedCache [] 0 1 netOk netOk "tok0" rfl
      ⟨⟨"tok0", 5⟩, rfl, by decide⟩⟩

/-- Witness for the amended C2 at a concrete input: empty cache, 401
response. -/
theorem non_200_auth_failure_witness :
    (cfgEx.ping_federate_client_id ≠ "" ∧
      cfgEx.ping_federate_client_secret ≠ "" ∧
      (false = true ∨ ∀ e, emptyCache (create_scope_key []) = some e →
        e.is_valid 0 = false) ∧
      netErr.status ≠ 200) ∧
    ((get_access_token cfgEx emptyCache [] false 0 netErr).outcome
        = Except.error (AuthError.authFailure netErr.status) ∧
      ((get_access_token cfgEx emptyCache [] false 0 netErr).cache
          (create_scope_key []) = emptyCache (create_scope_key []) ∨
        (get_access_token cfgEx emptyCache [] false 0 netErr).cache
          (create_scope_key []) = none)) :=
  ⟨⟨by decide, by decide, Or.inr (emptyCache_no_valid _ _), by decide⟩,
    non_200_auth_failure cfgEx emptyCache [] false 0 netErr (by decide)
      (by decide) (Or.inr (emptyCache_no_valid _ _)) (by decide)⟩

/-- Witness for C3 at a concrete input: empty cache, 200 response whose
JSON object lacks the access token. -/
theorem malformed_response_witness :
    (cfgEx.ping_federate_client_id ≠ "" ∧
      cfgEx.ping_federate_client_secret ≠ "" ∧
      (false = true ∨ ∀ e, emptyCache (create_scope_key []) = some e →
        e.is_valid 0 = false) ∧
      netNoTok.status = 200 ∧
      (netNoTok.jsonFields = none ∨
        ∃ fields, netNoTok.jsonFields = some fields ∧
          fields.lookup "access_token" = none)) ∧
    ((∃ m, (get_access_token cfgEx emptyCache [] false 0 netNoTok).outcome
        = Except.error (AuthError.authProtocolFailure m)) ∧
      ((get_access_token cfgEx emptyCache [] false 0 netNoTok).cache
          (create_scope_key []) = emptyCache (create_scope_key []) ∨
        (get_access_token cfgEx emptyCache [] false 0 netNoTok).cache
          (create_scope_key []) = none)) :=
  ⟨⟨by decide, by decide, Or.inr (emptyCache_no_valid _ _), rfl,
      Or.inr ⟨[("error", "invalid_scope")], rfl, rfl⟩⟩,
    malformed_response_protocol_failure cfgEx emptyCache [] false 0 netNoTok
      (by decide) (by decide) (Or.inr (emptyCache_no_valid _ _)) rfl
      (Or.inr ⟨[("error", "invalid_scope")], rfl, rfl⟩)⟩

/-- Witness for C4 at a concrete input: the two permuted scope lists of
the repository's unit tests. -/
theorem create_scope_key_correct_witness :
    List.Perm ["b", "a"] ["a", "b"] ∧
    (create_scope_key ["b", "a"] = create_scope_key ["a", "b"] ∧
      create_scope_key [] = "" ∧
      (∀ S : List String, create_scope_key S = scope_key_spec S)) :=
  ⟨by decide, create_scope_key_correct ["b", "a"] ["a", "b"] (by decide)⟩

/-- Witness for C6 at a concrete input: a seeded cache, empty scope
list. -/
theorem invalidate_then_refetch_witness :
    (cfgEx.ping_federate_client_id ≠ "" ∧
      cfgEx.ping_federate_client_secret ≠ "") ∧
    (invalidate_token seedCache [] (create_scope_key []) = none ∧
      (∀ k, k ≠ create_scope_key [] →
        invalidate_token seedCache [] k = seedCache k) ∧
      (get_access_token cfgEx (invalidate_token seedCache []) [] false 0
        netOk).networkCalls = 1) :=
  ⟨⟨by decide, by decide⟩,
    invalidate_then_refetch cfgEx seedCache [] 0 netOk (by decide) (by decide)⟩

/-- Witness for C7 at a concrete input: bypassing with a cache that holds
a valid entry. -/
theorem bypass_cache_fetches_witness :
    (cfgEx.ping_federate_client_id ≠ "" ∧
      cfgEx.ping_federate_client_secret ≠ "") ∧
    (get_access_token cfgEx seedCache [] true 0 netOk).networkCalls = 1 :=
  ⟨⟨by decide, by decide⟩,
    bypass_cache_fetches cfgEx seedCache [] 0 netOk (by decide) (by decide)⟩

/-- Witness for C8 at a concrete input: configuration with an empty
client id. -/
theorem missing_credentials_fail_fast_witness :
    ((cfgNoCred.ping_federate_client_id = "" ∨
        cfgNoCred.ping_federate_client_secret = "") ∧
      (false = true ∨ ∀ e, emptyCache (create_scope_key []) = some e →
        e.is_valid 0 = false)) ∧
    ((get_access_token cfgNoCred emptyCache [] false 0 netOk).outcome
        = Except.error (AuthError.configurationError configErrorMsg) ∧
      (get_access_token cfgNoCred emptyCache [] false 0 netOk).networkCalls
        = 0) :=
  ⟨⟨Or.inl rfl, Or.inr (emptyCache_no_valid _ _)⟩,
    missing_credentials_fail_fast cfgNoCred emptyCache [] false 0 netOk
      (Or.inl rfl) (Or.inr (emptyCache_no_valid _ _))⟩

/-- Witness for C9 at a concrete input: empty cache, successful 200
response carrying token tok1, fetch time 0. -/
theorem successful_fetch_caches_token_witness :
    (cfgEx.ping_federate_client_id ≠ "" ∧
      cfgEx.ping_federate_client_secret ≠ "" ∧
      (false = true ∨ ∀ e, emptyCache (create_scope_key []) = some e →
        e.is_valid 0 = false) ∧
      netOk.status = 200 ∧
      netOk.jsonFields = some [("access_token", "tok1")] ∧
      List.lookup "access_token" [("access_token", "tok1")] = some "tok1" ∧
      ("tok1" : String) ≠ "") ∧
    ((get_access_token cfgEx emptyCache [] false 0 netOk).outcome
        = Except.ok "tok1" ∧
      (get_access_token cfgEx emptyCache [] false 0 netOk).cache
        (create_scope_key []) = some ⟨"tok1", 0 + 55 * 60⟩) :=
  ⟨⟨by decide, by decide, Or.inr (emptyCache_no_valid _ _), rfl, rfl, rfl,
      by decide⟩,
    successful_fetch_caches_token cfgEx emptyCache [] false 0 netOk
      [("access_token", "tok1")] "tok1" (by decide) (by decide)
      (Or.inr (emptyCache_no_valid _ _)) rfl rfl rfl (by decide)⟩

/-- Witness for C10 at a concrete input: a cache whose entry expired at
time 5, a call at time 7, and a 401 response. -/
theorem expired_entry_removed_witness :
    (staleCache (create_scope_key []) = some ⟨"old-token", 5⟩ ∧
      TokenCacheEntry.is_valid ⟨"old-token", 5⟩ 7 = false ∧
      (get_access_token cfgEx staleCache [] false 7 netErr).outcome
        = Except.error (AuthError.authFailure 401)) ∧
    ((get_access_token cfgEx staleCache [] false 7 netErr).cache
        (create_scope_key []) = none ∧
      (∀ err2, (get_access_token cfgEx staleCache [] true 7 netErr).outcome
          = Except.error err2 →
        (get_access_token cfgEx staleCache [] true 7 netErr).cache
          (create_scope_key []) = staleCache (create_scope_key []))) :=
  ⟨⟨rfl, by decide, rfl⟩,
    expired_entry_removed_on_failed_refetch cfgEx staleCache [] 7 netErr
      ⟨"old-token", 5⟩ (AuthError.authFailure 401) rfl (by decide) rfl⟩
